import Mathlib

/-!
Verification of the LED-PWM-Driver-Mixer firmware core against its
natural-language specification.  The definitions below are shallow
embeddings of the C functions in `main/pwm_controller.c`, `main/encoder.c`,
`main/touch_sensor.c` and `main/nvs_manager.c`: machine integers are
modelled as `Nat`/`Int` (with explicit `% 2^32` where the C code relies on
`uint32_t` wraparound), GPIO levels as `Bool`, and fallible platform calls
(LEDC, NVS flash) as explicit boolean/algebraic oracles passed to the
function being modelled.
-/

namespace LedPwm

/-! ## PWM controller (`pwm_controller.c`) -/

/-- `CONFIG_PWM_MAX_DUTY` from `config.h`. -/
def CONFIG_PWM_MAX_DUTY : Nat := 255

/-- `pwm_clamp_duty` (pwm_controller.c:26-32). -/
def pwm_clamp_duty (duty : Nat) : Nat :=
  if duty > CONFIG_PWM_MAX_DUTY then CONFIG_PWM_MAX_DUTY else duty

/-- Outcome of the four LEDC hardware calls made by
`pwm_controller_set_brightness`: `ledc_set_duty`/`ledc_update_duty` on each
channel.  `true` means the call returns `ESP_OK`. -/
structure PwmHw where
  set1_ok : Bool
  update1_ok : Bool
  set2_ok : Bool
  update2_ok : Bool
deriving DecidableEq, Repr

/-- The cached brightness statics `current_duty_ch1` / `current_duty_ch2`. -/
structure PwmState where
  current_duty_ch1 : Nat
  current_duty_ch2 : Nat
deriving DecidableEq, Repr

/-- `pwm_controller_set_brightness` (pwm_controller.c:100-130): clamps the
duty, performs the four LEDC calls in order (returning `-1` on the first
failure without updating the cache), then stores the clamped duty in both
cached channel values and returns `0`. -/
def pwm_controller_set_brightness (hw : PwmHw) (duty : Nat) (s : PwmState) :
    Int × PwmState :=
  let d := pwm_clamp_duty duty
  if hw.set1_ok = false then (-1, s)
  else if hw.update1_ok = false then (-1, s)
  else if hw.set2_ok = false then (-1, s)
  else if hw.update2_ok = false then (-1, s)
  else (0, { current_duty_ch1 := d, current_duty_ch2 := d })

/-- `pwm_controller_get_brightness_ch1` (pwm_controller.c:177-180). -/
def pwm_controller_get_brightness_ch1 (s : PwmState) : Nat :=
  s.current_duty_ch1

/-- `pwm_controller_get_brightness_ch2` (pwm_controller.c:185-188). -/
def pwm_controller_get_brightness_ch2 (s : PwmState) : Nat :=
  s.current_duty_ch2

/-! ## Quadrature encoder (`encoder.c`) -/

/-- `ENCODER_POS_MIN` (encoder.c:18). -/
def ENCODER_POS_MIN : Int := 0

/-- `ENCODER_POS_MAX` (encoder.c:19). -/
def ENCODER_POS_MAX : Int := 255

/-- `SCALE_FACTORS` = `CONFIG_ENCODER_SCALE_FACTORS` = {1, 2, 5}. -/
def SCALE_FACTORS : List Nat := [1, 2, 5]

/-- `NUM_SCALES` = `CONFIG_ENCODER_NUM_SCALES` = 3. -/
def NUM_SCALES : Nat := 3

/-- The encoder statics: `encoder_position`, `last_clk_state`,
`last_dt_state`, `current_scale_index` (encoder.c:27-32).  GPIO levels are
booleans (`true` = level 1). -/
structure EncState where
  encoder_position : Int
  last_clk_state : Bool
  last_dt_state : Bool
  current_scale_index : Nat
deriving DecidableEq, Repr

/-- The 2-bit phase code `(clk << 1) | dt` (encoder.c:81-82). -/
def phase_code (clk dt : Bool) : Nat :=
  (cond clk 1 0) * 2 + (cond dt 1 0)

/-- The four valid clockwise phase-code pairs (encoder.c:89-92):
00→01, 01→11, 11→10, 10→00. -/
def cw_pair (prev curr : Nat) : Prop :=
  (prev = 0 ∧ curr = 1) ∨ (prev = 1 ∧ curr = 3) ∨
  (prev = 3 ∧ curr = 2) ∨ (prev = 2 ∧ curr = 0)

/-- The four valid counter-clockwise phase-code pairs (encoder.c:96-99):
00→10, 10→11, 11→01, 01→00. -/
def ccw_pair (prev curr : Nat) : Prop :=
  (prev = 0 ∧ curr = 2) ∨ (prev = 2 ∧ curr = 3) ∨
  (prev = 3 ∧ curr = 1) ∨ (prev = 1 ∧ curr = 0)

instance (prev curr : Nat) : Decidable (cw_pair prev curr) := by
  unfold cw_pair; infer_instance

instance (prev curr : Nat) : Decidable (ccw_pair prev curr) := by
  unfold ccw_pair; infer_instance

/-- The direction computation of `encoder_update_position`
(encoder.c:85-106): +1 for a valid CW pair, -1 for a valid CCW pair, 0
otherwise. -/
def encoder_direction (prev curr : Nat) : Int :=
  if cw_pair prev curr then 1
  else if ccw_pair prev curr then -1
  else 0

/-- The position update of `encoder_update_position` (encoder.c:113-125):
add/subtract the scale with saturation at `ENCODER_POS_MAX` /
`ENCODER_POS_MIN`; leave the position alone when `direction = 0`. -/
def encoder_apply_direction (direction scale pos : Int) : Int :=
  if direction = 1 then
    if pos + scale ≤ ENCODER_POS_MAX then pos + scale else ENCODER_POS_MAX
  else if direction = -1 then
    if pos - scale ≥ ENCODER_POS_MIN then pos - scale else ENCODER_POS_MIN
  else pos

/-- `encoder_update_position` (encoder.c:71-140) on one sample of the two
phase lines: if either line changed, decode the (previous, current) code
pair and update the position; in all cases store the sampled levels into
`last_clk_state` / `last_dt_state`. -/
def encoder_update_position (clk dt : Bool) (s : EncState) : EncState :=
  if clk ≠ s.last_clk_state ∨ dt ≠ s.last_dt_state then
    { s with
      encoder_position :=
        encoder_apply_direction
          (encoder_direction (phase_code s.last_clk_state s.last_dt_state)
            (phase_code clk dt))
          (SCALE_FACTORS.getD s.current_scale_index 0 : Int)
          s.encoder_position,
      last_clk_state := clk,
      last_dt_state := dt }
  else
    { s with last_clk_state := clk, last_dt_state := dt }

/-- `encoder_set_position` (encoder.c:344-359): clamped overwrite. -/
def encoder_set_position (position : Int) (s : EncState) : EncState :=
  { s with
    encoder_position :=
      if position < ENCODER_POS_MIN then ENCODER_POS_MIN
      else if position > ENCODER_POS_MAX then ENCODER_POS_MAX
      else position }

/-- `encoder_cycle_scale_factor` (encoder.c:413-420), also the scale-cycle
performed on a button press in `encoder_task` (encoder.c:169). -/
def encoder_cycle_scale_factor (s : EncState) : EncState :=
  { s with current_scale_index := (s.current_scale_index + 1) % NUM_SCALES }

/-- One interaction with the encoder state: a poll of the phase lines, a
direct `encoder_set_position` call, or a scale-factor cycle. -/
inductive EncOp where
  | poll (clk dt : Bool)
  | setPos (p : Int)
  | cycleScale
deriving DecidableEq, Repr

/-- Apply one `EncOp`. -/
def encStep (op : EncOp) (s : EncState) : EncState :=
  match op with
  | EncOp.poll clk dt => encoder_update_position clk dt s
  | EncOp.setPos p => encoder_set_position p s
  | EncOp.cycleScale => encoder_cycle_scale_factor s

/-- Run a sequence of encoder operations. -/
def encRun : List EncOp → EncState → EncState
  | [], s => s
  | op :: rest, s => encRun rest (encStep op s)

/-! ## Touch sensor (`touch_sensor.c`) -/

/-- `CONFIG_TOUCH_DEBOUNCE_COUNT` from `config.h`: the `debounce_threshold`
of `touch_sensor_task`. -/
def CONFIG_TOUCH_DEBOUNCE_COUNT : Nat := 5

/-- `2^32`, the modulus of the `uint32_t` counters. -/
def U32 : Nat := 2 ^ 32

/-- The touch statics `sensor_touched`, `touch_event_count`,
`last_sensor_state` (touch_sensor.c:18-20) together with the task-local
`debounce_counter` (touch_sensor.c:46). -/
structure TouchState where
  sensor_touched : Bool
  touch_event_count : Nat
  last_sensor_state : Bool
  debounce_counter : Nat
deriving DecidableEq, Repr

/-- One iteration of the `touch_sensor_task` loop (touch_sensor.c:49-82) on
a raw sample `current_state`: if the sample equals `last_sensor_state` the
counter resets; otherwise the counter increments and, on reaching the
threshold, the state is confirmed (`sensor_touched` follows the sample,
`touch_event_count` increments on a confirmed untouched→touched edge,
`last_sensor_state` updates, counter resets). -/
def touch_sensor_step (current_state : Bool) (s : TouchState) : TouchState :=
  if current_state = s.last_sensor_state then
    { s with debounce_counter := 0 }
  else
    let c := (s.debounce_counter + 1) % U32
    if c ≥ CONFIG_TOUCH_DEBOUNCE_COUNT then
      let s1 :=
        if current_state = true ∧ s.sensor_touched = false then
          { s with
            sensor_touched := true,
            touch_event_count := (s.touch_event_count + 1) % U32 }
        else if current_state = false ∧ s.sensor_touched = true then
          { s with sensor_touched := false }
        else s
      { s1 with last_sensor_state := current_state, debounce_counter := 0 }
    else
      { s with debounce_counter := c }

/-- Run the touch task over a list of raw samples. -/
def touchRun : List Bool → TouchState → TouchState
  | [], s => s
  | b :: rest, s => touchRun rest (touch_sensor_step b s)

/-! ## NVS persistence scheduler (`nvs_manager.c`) -/

/-- `CONFIG_NVS_DEFAULT_PWM_ENABLE` from `config.h`. -/
def CONFIG_NVS_DEFAULT_PWM_ENABLE : Bool := true

/-- `CONFIG_NVS_DEFAULT_PWM_VALUE` = `CONFIG_ENCODER_INITIAL_POS` = 155. -/
def CONFIG_NVS_DEFAULT_PWM_VALUE : Nat := 155

/-- `FLASH_WRITE_DEBOUNCE_MS` = `CONFIG_FLASH_WRITE_DEBOUNCE` = 5000. -/
def FLASH_WRITE_DEBOUNCE_MS : Nat := 5000

/-- `nvs_led_state_t`: `pwm_enabled` and `pwm_value` (a `uint32_t`). -/
structure NvsLedState where
  pwm_enabled : Bool
  pwm_value : Nat
deriving DecidableEq, Repr

/-- The built-in default state (enabled = true, brightness = 155). -/
def NVS_DEFAULTS : NvsLedState :=
  { pwm_enabled := CONFIG_NVS_DEFAULT_PWM_ENABLE,
    pwm_value := CONFIG_NVS_DEFAULT_PWM_VALUE }

/-- The scheduler statics of `nvs_manager.c` (lines 163-176):
`last_saved_state`, `state_cached`, `pending_state`, `pending_timestamp`
(milliseconds, a `uint32_t`), `pending_write`. -/
structure NvsMgr where
  last_saved_state : NvsLedState
  state_cached : Bool
  pending_state : NvsLedState
  pending_timestamp : Nat
  pending_write : Bool
deriving DecidableEq, Repr

/-- Result of one `nvs_get_u8`/`nvs_get_u32` call: a stored value, the key
being absent (`ESP_ERR_NVS_NOT_FOUND`), or any other error. -/
inductive ReadRes (A : Type) where
  | ok (v : A)
  | notFound
  | ioError
deriving DecidableEq, Repr

/-- The durable store as seen by `nvs_manager_load_led_state`: whether
`nvs_open(..., NVS_READONLY, ...)` succeeds, and the outcomes of reading
the `pwm_en` and `pwm_val` keys. -/
structure NvsFlash where
  open_ok : Bool
  read_pwm_enabled : ReadRes Nat
  read_pwm_value : ReadRes Nat
deriving DecidableEq, Repr

/-- `nvs_manager_load_led_state` (nvs_manager.c:215-256).  The caller's
buffer `buf` models the `state` out-parameter (written field by field, so
a failure after the first field leaves the buffer partially updated).
A NULL `state` pointer is modelled by `none`. -/
def nvs_manager_load_led_state (f : NvsFlash) (state : Option NvsLedState) :
    Int × Option NvsLedState :=
  match state with
  | none => (-1, none)
  | some buf =>
    if f.open_ok = false then
      (0, some { pwm_enabled := CONFIG_NVS_DEFAULT_PWM_ENABLE,
                 pwm_value := CONFIG_NVS_DEFAULT_PWM_VALUE })
    else
      match f.read_pwm_enabled with
      | ReadRes.ioError => (-1, some buf)
      | r1 =>
        let pwm_enabled : Nat :=
          match r1 with
          | ReadRes.ok v => v
          | _ => 1
        let buf1 : NvsLedState := { buf with pwm_enabled := pwm_enabled != 0 }
        match f.read_pwm_value with
        | ReadRes.ioError => (-1, some buf1)
        | r2 =>
          let pwm_value : Nat :=
            match r2 with
            | ReadRes.ok v => v
            | _ => CONFIG_NVS_DEFAULT_PWM_VALUE
          (0, some { buf1 with pwm_value := pwm_value })

/-- `nvs_manager_save_led_state` (nvs_manager.c:261-293).  `state = none`
models a NULL pointer; `now` models
`xTaskGetTickCount() * portTICK_PERIOD_MS`.  Comparing the two-field
structures for equality is exactly the field-wise comparison the C code
performs. -/
def nvs_manager_save_led_state (state : Option NvsLedState) (now : Nat)
    (m : NvsMgr) : Int × NvsMgr :=
  match state with
  | none => (-1, m)
  | some st =>
    if m.state_cached = true ∧ m.last_saved_state = st then (0, m)
    else if m.pending_write = true ∧ m.pending_state = st then (0, m)
    else (0, { m with
                 pending_state := st,
                 pending_timestamp := now,
                 pending_write := true })

/-- `nvs_manager_commit_write` (nvs_manager.c:298-343).  `ok` abstracts
whether the `nvs_open`/`nvs_set`/`nvs_commit` sequence succeeds; on success
the cache is updated and the committed record (the durable write) is
returned, on failure the function returns `-1` with no durable write. -/
def nvs_manager_commit_write (ok : Bool) (st : NvsLedState) (m : NvsMgr) :
    Int × NvsMgr × Option NvsLedState :=
  if ok = true then
    (0, { m with last_saved_state := st, state_cached := true }, some st)
  else
    (-1, m, none)

/-- The `uint32_t` subtraction `current_time - pending_timestamp`
(nvs_manager.c:356). -/
def nvsElapsed (now ts : Nat) : Nat :=
  (now + U32 - ts) % U32

/-- `nvs_manager_check_pending_write` (nvs_manager.c:349-367): if a write
is pending and the debounce window has elapsed, attempt the commit and
clear `pending_write` (unconditionally), returning the commit result; the
third component is the durable write performed, if any. -/
def nvs_manager_check_pending_write (ok : Bool) (now : Nat) (m : NvsMgr) :
    Int × NvsMgr × Option NvsLedState :=
  if m.pending_write = false then (0, m, none)
  else
    if nvsElapsed now m.pending_timestamp ≥ FLASH_WRITE_DEBOUNCE_MS then
      let r := nvs_manager_commit_write ok m.pending_state m
      (r.1, { r.2.1 with pending_write := false }, r.2.2)
    else
      (0, m, none)

/-- The scheduler state right after `nvs_manager_init` (nvs_manager.c:181-
210): `last_saved_state` holds the loaded (or default) state `b`,
`state_cached` is set, and the pending-write statics keep their
initializers. -/
def initMgr (b : NvsLedState) : NvsMgr :=
  { last_saved_state := b,
    state_cached := true,
    pending_state := NVS_DEFAULTS,
    pending_timestamp := 0,
    pending_write := false }

/-- Run a sequence of `requestSave` calls, each given as
(timestamp, candidate). -/
def runSaves : List (Nat × NvsLedState) → NvsMgr → NvsMgr
  | [], m => m
  | p :: rest, m => runSaves rest (nvs_manager_save_led_state (some p.2) p.1 m).2

/-- Run a sequence of periodic `nvs_manager_check_pending_write` calls at
the given times against a functioning durable store (every attempted
commit succeeds), collecting the durable writes performed. -/
def runTicks : List Nat → NvsMgr → NvsMgr × List NvsLedState
  | [], m => (m, [])
  | t :: rest, m =>
    let r := nvs_manager_check_pending_write true t m
    let tail := runTicks rest r.2.1
    (tail.1, r.2.2.toList ++ tail.2)

/-- The last element of a request list, with a default. -/
def lastReq (d : Nat × NvsLedState) : List (Nat × NvsLedState) → Nat × NvsLedState
  | [] => d
  | p :: rest => lastReq p rest

/-- The scheduler states reachable after initialization: any initial state
produced by `nvs_manager_init`, closed under `nvs_manager_save_led_state`
and `nvs_manager_check_pending_write` with arbitrary arguments. -/
inductive NvsReachable : NvsMgr → Prop where
  | init (b : NvsLedState) : NvsReachable (initMgr b)
  | save (st : Option NvsLedState) (now : Nat) {m : NvsMgr} :
      NvsReachable m → NvsReachable (nvs_manager_save_led_state st now m).2
  | tick (ok : Bool) (now : Nat) {m : NvsMgr} :
      NvsReachable m → NvsReachable (nvs_manager_check_pending_write ok now m).2.1

/-! ## Theorems -/

/-- `requestSave` never touches `state_cached`. -/
lemma save_state_cached (st : Option NvsLedState) (now : Nat) (m : NvsMgr) :
    (nvs_manager_save_led_state st now m).2.state_cached = m.state_cached := by
  cases st with
  | none => rfl
  | some s =>
    simp only [nvs_manager_save_led_state]
    split_ifs <;> rfl

/-- `tick` preserves a set `state_cached` flag. -/
lemma tick_state_cached (ok : Bool) (now : Nat) (m : NvsMgr)
    (h : m.state_cached = true) :
    (nvs_manager_check_pending_write ok now m).2.1.state_cached = true := by
  simp only [nvs_manager_check_pending_write, nvs_manager_commit_write]
  split_ifs <;> simp [h]

/-- Every reachable scheduler state has `state_cached = true`. -/
lemma reachable_state_cached {m : NvsMgr} (h : NvsReachable m) :
    m.state_cached = true := by
  induction h with
  | init b => rfl
  | save st now _ ih => rw [save_state_cached]; exact ih
  | tick ok now _ ih => exact tick_state_cached _ _ _ ih

/-- Claim C9: `pwm_controller_set_brightness` clamps every duty argument to
`min duty 255` (out-of-range inputs are clamped, never rejected), and when
it returns success both cached channel brightness values equal the clamped
value. -/
theorem set_brightness_clamped_both_channels (hw : PwmHw) (duty : Nat)
    (s : PwmState) :
    pwm_clamp_duty duty = min duty 255 ∧
    ((pwm_controller_set_brightness hw duty s).1 = 0 →
      pwm_controller_get_brightness_ch1
          (pwm_controller_set_brightness hw duty s).2 = min duty 255 ∧
      pwm_controller_get_brightness_ch2
          (pwm_controller_set_brightness hw duty s).2 = min duty 255) := by
  have hclamp : pwm_clamp_duty duty = min duty 255 := by
    unfold pwm_clamp_duty CONFIG_PWM_MAX_DUTY
    split <;> omega
  refine ⟨hclamp, fun h => ?_⟩
  unfold pwm_controller_set_brightness at h ⊢
  split_ifs at h ⊢ <;>
    simp_all [pwm_controller_get_brightness_ch1, pwm_controller_get_brightness_ch2]

/-- Claim C9 witness: at duty 300 with all hardware calls succeeding, the
call succeeds and both cached channels read back 255. -/
theorem set_brightness_clamped_both_channels_instance :
    (pwm_controller_set_brightness ⟨true, true, true, true⟩ 300 ⟨0, 0⟩).1 = 0 ∧
    pwm_controller_get_brightness_ch1
        (pwm_controller_set_brightness ⟨true, true, true, true⟩ 300 ⟨0, 0⟩).2 =
      min 300 255 :=
  ⟨by decide,
   ((set_brightness_clamped_both_channels ⟨true, true, true, true⟩ 300 ⟨0, 0⟩).2
     (by decide)).1⟩

/-- Claim C10: `nvs_manager_save_led_state` returns success (0) on every
non-NULL state argument in every scheduler state, and returns -1 (leaving
the scheduler untouched) exactly when the pointer is NULL.  The embedded
function has no durable-store effect at all, mirroring the absence of any
NVS API call in the source function. -/
theorem save_fails_only_on_null :
    ∀ (st : NvsLedState) (now : Nat) (m : NvsMgr),
      (nvs_manager_save_led_state (some st) now m).1 = 0 ∧
      nvs_manager_save_led_state none now m = (-1, m) := by
  intro st now m
  constructor
  · simp only [nvs_manager_save_led_state]
    split_ifs <;> rfl
  · rfl

/-- Claim C6: in every scheduler state reachable after initialization, a
`requestSave` whose candidate equals the committed baseline
(`last_saved_state`) is a complete no-op: it returns 0 and neither creates
nor replaces a PendingWrite. -/
theorem save_committed_baseline_noop (m : NvsMgr) (now : Nat)
    (h : NvsReachable m) :
    nvs_manager_save_led_state (some m.last_saved_state) now m = (0, m) := by
  have hc := reachable_state_cached h
  simp [nvs_manager_save_led_state, hc]

/-- Claim C6 witness: the freshly initialized scheduler is reachable and a
save of its baseline is a no-op. -/
theorem save_committed_baseline_noop_instance :
    NvsReachable (initMgr NVS_DEFAULTS) ∧
    nvs_manager_save_led_state (some (initMgr NVS_DEFAULTS).last_saved_state) 0
      (initMgr NVS_DEFAULTS) = (0, initMgr NVS_DEFAULTS) :=
  ⟨NvsReachable.init NVS_DEFAULTS,
   save_committed_baseline_noop (initMgr NVS_DEFAULTS) 0
     (NvsReachable.init NVS_DEFAULTS)⟩

/-- Claim C7: while a PendingWrite is active, a `requestSave` whose
candidate equals the pending candidate returns 0 and leaves the entire
scheduler state unchanged; in particular `pending_timestamp` (the commit
deadline) is not refreshed. -/
theorem save_duplicate_pending_noop (m : NvsMgr) (st : NvsLedState) (now : Nat)
    (hp : m.pending_write = true) (hs : m.pending_state = st) :
    nvs_manager_save_led_state (some st) now m = (0, m) := by
  by_cases h1 : m.state_cached = true ∧ m.last_saved_state = st
  · simp [nvs_manager_save_led_state, h1]
  · simp [nvs_manager_save_led_state, h1, hp, hs]

/-- Claim C7 witness: a duplicate request at a much later time leaves the
pending timestamp 42 in place. -/
theorem save_duplicate_pending_noop_instance :
    (⟨NVS_DEFAULTS, true, ⟨true, 200⟩, 42, true⟩ : NvsMgr).pending_write = true ∧
    nvs_manager_save_led_state (some ⟨true, 200⟩) 9999
        ⟨NVS_DEFAULTS, true, ⟨true, 200⟩, 42, true⟩ =
      (0, ⟨NVS_DEFAULTS, true, ⟨true, 200⟩, 42, true⟩) :=
  ⟨rfl, save_duplicate_pending_noop _ _ 9999 rfl rfl⟩

/-- Claim C1 counterexample: with a PendingWrite active (requested at 0),
a tick at time 5000 whose commit fails leaves `pending_write = false` —
the pending write does NOT remain active, contradicting the claim that a
failed commit is retried on the next tick. -/
theorem check_pending_write_failure_clears_pending :
    (nvs_manager_check_pending_write false 5000
        ⟨⟨true, 155⟩, true, ⟨true, 200⟩, 0, true⟩).2.1.pending_write = false := by
  decide

/-- Claim C1 (amended): if a PendingWrite is active and the tick attempts
the durable write after the debounce window but the write fails, the tick
reports -1 to the caller, clears the PendingWrite (keeping every other
field, including the committed baseline, unchanged), and every subsequent
tick is a no-op — the failed write is dropped, not retried. -/
theorem check_pending_write_failure_no_retry (m : NvsMgr) (now : Nat)
    (hp : m.pending_write = true)
    (he : nvsElapsed now m.pending_timestamp ≥ FLASH_WRITE_DEBOUNCE_MS) :
    nvs_manager_check_pending_write false now m =
      (-1, { m with pending_write := false }, none) ∧
    (∀ (ok : Bool) (now2 : Nat),
      nvs_manager_check_pending_write ok now2 { m with pending_write := false } =
        (0, { m with pending_write := false }, none)) := by
  constructor
  · simp [nvs_manager_check_pending_write, hp, he, nvs_manager_commit_write]
  · intro ok now2
    simp [nvs_manager_check_pending_write]

/-- Claim C1 (amended) witness. -/
theorem check_pending_write_failure_no_retry_instance :
    (⟨⟨true, 155⟩, true, ⟨true, 200⟩, 0, true⟩ : NvsMgr).pending_write = true ∧
    nvsElapsed 6000 0 ≥ FLASH_WRITE_DEBOUNCE_MS ∧
    nvs_manager_check_pending_write false 6000
        ⟨⟨true, 155⟩, true, ⟨true, 200⟩, 0, true⟩ =
      (-1, ⟨⟨true, 155⟩, true, ⟨true, 200⟩, 0, false⟩, none) :=
  ⟨rfl, by decide,
   (check_pending_write_failure_no_retry ⟨⟨true, 155⟩, true, ⟨true, 200⟩, 0, true⟩
     6000 rfl (by decide)).1⟩

/-- Claim C8 counterexample: a store that opens but whose `pwm_en` key read
fails with an I/O error (an unreadable store) makes
`nvs_manager_load_led_state` return -1 instead of substituting the
defaults and reporting success. -/
theorem load_key_ioerror_fails :
    (nvs_manager_load_led_state ⟨true, ReadRes.ioError, ReadRes.ok 200⟩
        (some ⟨false, 0⟩)).1 = -1 := by
  rfl

/-- Claim C8 (amended): when the store cannot be opened (absent/empty
namespace) or it opens with both keys missing, load substitutes the
built-in defaults (enabled = true, brightness = 155) into the output state
and reports success; but when a present key's read fails with an I/O
error, load reports failure instead. -/
theorem load_missing_data_defaults (f : NvsFlash) (buf : NvsLedState)
    (h : f.open_ok = false ∨
         (f.read_pwm_enabled = ReadRes.notFound ∧
          f.read_pwm_value = ReadRes.notFound)) :
    nvs_manager_load_led_state f (some buf) = (0, some NVS_DEFAULTS) := by
  rcases f with ⟨o, r1, r2⟩
  rcases buf with ⟨be, bv⟩
  rcases h with h | ⟨h1, h2⟩
  · simp only at h
    subst h
    rfl
  · simp only at h1 h2
    subst h1
    subst h2
    cases o
    · rfl
    · rfl

/-- Claim C8 (amended) witness: open succeeds, both keys absent. -/
theorem load_missing_data_defaults_instance :
    ((⟨true, ReadRes.notFound, ReadRes.notFound⟩ : NvsFlash).open_ok = false ∨
     ((⟨true, ReadRes.notFound, ReadRes.notFound⟩ : NvsFlash).read_pwm_enabled =
        ReadRes.notFound ∧
      (⟨true, ReadRes.notFound, ReadRes.notFound⟩ : NvsFlash).read_pwm_value =
        ReadRes.notFound)) ∧
    nvs_manager_load_led_state ⟨true, ReadRes.notFound, ReadRes.notFound⟩
        (some ⟨false, 0⟩) = (0, some NVS_DEFAULTS) :=
  ⟨Or.inr ⟨rfl, rfl⟩,
   load_missing_data_defaults _ _ (Or.inr ⟨rfl, rfl⟩)⟩

/-- The 2-bit phase code determines the two line levels. -/
lemma phase_code_inj (a b c d : Bool) :
    phase_code a b = phase_code c d ↔ (a = c ∧ b = d) := by
  cases a <;> cases b <;> cases c <;> cases d <;> decide

/-- A valid CW pair is never also a valid CCW pair. -/
lemma cw_not_ccw {p c : Nat} (h : cw_pair p c) : ¬ ccw_pair p c := by
  unfold cw_pair at h
  rcases h with ⟨rfl, rfl⟩ | ⟨rfl, rfl⟩ | ⟨rfl, rfl⟩ | ⟨rfl, rfl⟩ <;> decide

/-- Saturating position update stays within [0, 255] whenever the scale is
nonnegative and the starting position is in range. -/
lemma apply_dir_bounds (d k pos : Int) (hk : 0 ≤ k) (h0 : 0 ≤ pos)
    (h1 : pos ≤ 255) :
    0 ≤ encoder_apply_direction d k pos ∧
    encoder_apply_direction d k pos ≤ 255 := by
  unfold encoder_apply_direction ENCODER_POS_MIN ENCODER_POS_MAX
  split_ifs <;> omega

/-- Claim C4: on a poll where the phase code changed, a valid CW pair adds
the current scale factor saturating at 255, the mirror CCW pair subtracts
it saturating at 0, any other pair leaves the position unchanged, and the
position never leaves [0, 255] in any case. -/
theorem encoder_update_position_cases (s : EncState) (clk dt : Bool)
    (hchange : phase_code clk dt ≠
      phase_code s.last_clk_state s.last_dt_state) :
    (cw_pair (phase_code s.last_clk_state s.last_dt_state)
        (phase_code clk dt) →
      (encoder_update_position clk dt s).encoder_position =
        min (s.encoder_position +
          (SCALE_FACTORS.getD s.current_scale_index 0 : Int)) 255) ∧
    (ccw_pair (phase_code s.last_clk_state s.last_dt_state)
        (phase_code clk dt) →
      (encoder_update_position clk dt s).encoder_position =
        max (s.encoder_position -
          (SCALE_FACTORS.getD s.current_scale_index 0 : Int)) 0) ∧
    (¬ cw_pair (phase_code s.last_clk_state s.last_dt_state)
        (phase_code clk dt) →
     ¬ ccw_pair (phase_code s.last_clk_state s.last_dt_state)
        (phase_code clk dt) →
      (encoder_update_position clk dt s).encoder_position =
        s.encoder_position) ∧
    (0 ≤ s.encoder_position → s.encoder_position ≤ 255 →
      0 ≤ (encoder_update_position clk dt s).encoder_position ∧
      (encoder_update_position clk dt s).encoder_position ≤ 255) := by
  have hguard : clk ≠ s.last_clk_state ∨ dt ≠ s.last_dt_state := by
    by_contra hcon
    push_neg at hcon
    exact hchange (by rw [hcon.1, hcon.2])
  have hupd : (encoder_update_position clk dt s).encoder_position =
      encoder_apply_direction
        (encoder_direction (phase_code s.last_clk_state s.last_dt_state)
          (phase_code clk dt))
        (SCALE_FACTORS.getD s.current_scale_index 0 : Int)
        s.encoder_position := by
    unfold encoder_update_position
    rw [if_pos hguard]
  have hk : (0 : Int) ≤ (SCALE_FACTORS.getD s.current_scale_index 0 : Int) :=
    Int.natCast_nonneg _
  refine ⟨?_, ?_, ?_, ?_⟩
  · intro hcw
    rw [hupd]
    unfold encoder_direction
    rw [if_pos hcw]
    norm_num [encoder_apply_direction, ENCODER_POS_MAX, ENCODER_POS_MIN]
    all_goals ((try split_ifs) <;> omega)
  · intro hccw
    rw [hupd]
    unfold encoder_direction
    rw [if_neg (fun hcw => cw_not_ccw hcw hccw), if_pos hccw]
    norm_num [encoder_apply_direction, ENCODER_POS_MAX, ENCODER_POS_MIN]
    all_goals ((try split_ifs) <;> omega)
  · intro hncw hnccw
    rw [hupd]
    unfold encoder_direction
    rw [if_neg hncw, if_neg hnccw]
    norm_num [encoder_apply_direction, ENCODER_POS_MAX, ENCODER_POS_MIN]
  · intro h0 h1
    rw [hupd]
    exact apply_dir_bounds _ _ _ hk h0 h1

/-- Claim C4 witness: from position 250 at scale factor 5, the CW pair
00→01 saturates at 255. -/
theorem encoder_update_position_cases_instance :
    phase_code false true ≠ phase_code false false ∧
    cw_pair (phase_code false false) (phase_code false true) ∧
    (encoder_update_position false true ⟨250, false, false, 2⟩).encoder_position =
      min ((250 : Int) + (SCALE_FACTORS.getD 2 0 : Int)) 255 :=
  ⟨by decide, by decide,
   (encoder_update_position_cases ⟨250, false, false, 2⟩ false true
     (by decide)).1 (by decide)⟩

/-- Every single encoder operation preserves the position range. -/
lemma encStep_position_in_range (op : EncOp) (s : EncState)
    (h0 : 0 ≤ s.encoder_position) (h1 : s.encoder_position ≤ 255) :
    0 ≤ (encStep op s).encoder_position ∧
    (encStep op s).encoder_position ≤ 255 := by
  cases op with
  | poll clk dt =>
    simp only [encStep]
    unfold encoder_update_position
    split_ifs
    · dsimp only
      exact apply_dir_bounds _ _ _ (Int.natCast_nonneg _) h0 h1
    · exact ⟨h0, h1⟩
  | setPos p =>
    simp only [encStep]
    unfold encoder_set_position ENCODER_POS_MIN ENCODER_POS_MAX
    dsimp only
    split_ifs <;> omega
  | cycleScale => exact ⟨h0, h1⟩

/-- Running any operation sequence preserves the position range. -/
lemma encRun_position_in_range (ops : List EncOp) : ∀ (s : EncState),
    0 ≤ s.encoder_position → s.encoder_position ≤ 255 →
    0 ≤ (encRun ops s).encoder_position ∧
    (encRun ops s).encoder_position ≤ 255 := by
  induction ops with
  | nil => exact fun s h0 h1 => ⟨h0, h1⟩
  | cons op rest ih =>
    intro s h0 h1
    have h := encStep_position_in_range op s h0 h1
    exact ih _ h.1 h.2

/-- Claim C3: starting from an in-range position, after any prefix of any
sequence of phase-line polls, `encoder_set_position` calls (with arbitrary
integer arguments) and scale cycles, the encoder position is within
[0, 255] — so it holds at every step. -/
theorem encoder_position_in_range (s : EncState) (ops : List EncOp) (n : Nat)
    (h0 : 0 ≤ s.encoder_position) (h1 : s.encoder_position ≤ 255) :
    0 ≤ (encRun (ops.take n) s).encoder_position ∧
    (encRun (ops.take n) s).encoder_position ≤ 255 :=
  encRun_position_in_range (ops.take n) s h0 h1

/-- Claim C3 witness: a poll followed by an out-of-range
`encoder_set_position 300` keeps the position in range. -/
theorem encoder_position_in_range_instance :
    (0 : Int) ≤ 155 ∧ (155 : Int) ≤ 255 ∧
    (0 ≤ (encRun (([EncOp.poll true false, EncOp.setPos 300]).take 2)
        ⟨155, false, false, 0⟩).encoder_position ∧
     (encRun (([EncOp.poll true false, EncOp.setPos 300]).take 2)
        ⟨155, false, false, 0⟩).encoder_position ≤ 255) :=
  ⟨by decide, by decide,
   encoder_position_in_range ⟨155, false, false, 0⟩
     [EncOp.poll true false, EncOp.setPos 300] 2 (by decide) (by decide)⟩

/-- Running the touch task over a concatenation composes. -/
lemma touchRun_append (l1 l2 : List Bool) : ∀ (s : TouchState),
    touchRun (l1 ++ l2) s = touchRun l2 (touchRun l1 s) := by
  induction l1 with
  | nil => intro s; rfl
  | cons b rest ih => intro s; exact ih (touch_sensor_step b s)

/-- Samples equal to the confirmed state leave a settled debouncer
unchanged. -/
lemma touchRun_stable (x : Bool) : ∀ (m : Nat) (s : TouchState),
    s.last_sensor_state = x → s.debounce_counter = 0 →
    touchRun (List.replicate m x) s = s := by
  intro m
  induction m with
  | zero => intro s _ _; rfl
  | succ k ih =>
    intro s h1 h2
    have hstep : touch_sensor_step x s = s := by
      rcases s with ⟨t, c, l, d⟩
      simp only at h1 h2
      subst h1
      subst h2
      simp [touch_sensor_step]
    rw [List.replicate_succ]
    show touchRun (List.replicate k x) (touch_sensor_step x s) = s
    rw [hstep]
    exact ih s h1 h2

/-- Exactly `threshold` consecutive flipped samples confirm the change:
the confirmed state and `last_sensor_state` follow the new level, the
counter resets, and the event count increments exactly when the confirmed
transition is untouched→touched. -/
lemma touchRun_threshold_confirm (s : TouchState)
    (hc : s.debounce_counter = 0)
    (hcouple : s.sensor_touched = s.last_sensor_state)
    (hcount : s.touch_event_count + 1 < U32) :
    touchRun (List.replicate CONFIG_TOUCH_DEBOUNCE_COUNT (!s.last_sensor_state)) s =
      { sensor_touched := !s.last_sensor_state,
        touch_event_count :=
          if s.last_sensor_state = false then s.touch_event_count + 1
          else s.touch_event_count,
        last_sensor_state := !s.last_sensor_state,
        debounce_counter := 0 } := by
  rcases s with ⟨t, c, l, d⟩
  simp only at hc hcouple hcount
  subst hc
  subst hcouple
  simp only [U32] at hcount
  cases t <;>
    simp [touchRun, touch_sensor_step, CONFIG_TOUCH_DEBOUNCE_COUNT, U32,
      List.replicate, Nat.mod_eq_of_lt hcount]
  omega

/-- Claim C5: a raw level change sustained for at least the configured
threshold (5) of consecutive polls produces exactly one confirmed state
change: the confirmed state and `lastSampledState` follow the new level,
the debounce counter is 0, and `touchEventCount` increments by exactly 1
if and only if the confirmed transition is untouched→touched. -/
theorem touch_sustained_change_confirms_once (s : TouchState) (n : Nat)
    (hn : CONFIG_TOUCH_DEBOUNCE_COUNT ≤ n)
    (hc : s.debounce_counter = 0)
    (hcouple : s.sensor_touched = s.last_sensor_state)
    (hcount : s.touch_event_count + 1 < U32) :
    (touchRun (List.replicate n (!s.last_sensor_state)) s).sensor_touched =
        !s.last_sensor_state ∧
    (touchRun (List.replicate n (!s.last_sensor_state)) s).last_sensor_state =
        !s.last_sensor_state ∧
    (touchRun (List.replicate n (!s.last_sensor_state)) s).debounce_counter = 0 ∧
    (touchRun (List.replicate n (!s.last_sensor_state)) s).touch_event_count =
      (if s.last_sensor_state = false then s.touch_event_count + 1
       else s.touch_event_count) := by
  obtain ⟨m, rfl⟩ : ∃ m, n = CONFIG_TOUCH_DEBOUNCE_COUNT + m :=
    ⟨n - CONFIG_TOUCH_DEBOUNCE_COUNT, by omega⟩
  rw [List.replicate_add, touchRun_append,
    touchRun_threshold_confirm s hc hcouple hcount,
    touchRun_stable (!s.last_sensor_state) m
      { sensor_touched := !s.last_sensor_state,
        touch_event_count :=
          if s.last_sensor_state = false then s.touch_event_count + 1
          else s.touch_event_count,
        last_sensor_state := !s.last_sensor_state,
        debounce_counter := 0 } rfl rfl]
  exact ⟨rfl, rfl, rfl, rfl⟩

/-- Claim C5 witness: five consecutive high samples on an idle untouched
debouncer confirm a touch and count exactly one event. -/
theorem touch_sustained_change_confirms_once_instance :
    CONFIG_TOUCH_DEBOUNCE_COUNT ≤ 5 ∧
    (touchRun (List.replicate 5 true) ⟨false, 0, false, 0⟩).sensor_touched = true ∧
    (touchRun (List.replicate 5 true) ⟨false, 0, false, 0⟩).touch_event_count = 1 := by
  have h := touch_sustained_change_confirms_once ⟨false, 0, false, 0⟩ 5
    (by decide) rfl rfl (by decide)
  exact ⟨by decide, h.1, by simpa using h.2.2.2⟩

/-- A save whose candidate matches neither the cached baseline nor an
active pending candidate (re)queues the pending slot. -/
lemma save_queues (m : NvsMgr) (t : Nat) (v : NvsLedState)
    (h1 : ¬ (m.state_cached = true ∧ m.last_saved_state = v))
    (h2 : ¬ (m.pending_write = true ∧ m.pending_state = v)) :
    (nvs_manager_save_led_state (some v) t m).2 =
      { m with pending_state := v, pending_timestamp := t,
               pending_write := true } := by
  simp [nvs_manager_save_led_state, h1, h2]

/-- Processing a burst of requests, all different from the baseline and
consecutively distinct, starting with an active pending slot: the pending
slot ends holding the last request (or the original one if the burst is
empty). -/
lemma runSaves_pending (b : NvsLedState) :
    ∀ (reqs : List (Nat × NvsLedState)) (m : NvsMgr),
      m.state_cached = true → m.last_saved_state = b → m.pending_write = true →
      (∀ p ∈ reqs, p.2 ≠ b) →
      List.Chain' (fun x y => x ≠ y) (m.pending_state :: reqs.map Prod.snd) →
      (runSaves reqs m).state_cached = true ∧
      (runSaves reqs m).last_saved_state = b ∧
      (runSaves reqs m).pending_write = true ∧
      (runSaves reqs m).pending_state =
        (lastReq (m.pending_timestamp, m.pending_state) reqs).2 ∧
      (runSaves reqs m).pending_timestamp =
        (lastReq (m.pending_timestamp, m.pending_state) reqs).1 := by
  intro reqs
  induction reqs with
  | nil => intro m h1 h2 h3 _ _; exact ⟨h1, h2, h3, rfl, rfl⟩
  | cons p rest ih =>
    intro m h1 h2 h3 hvals hchain
    obtain ⟨t, v⟩ := p
    simp only [List.map_cons] at hchain
    have hvb : v ≠ b := hvals (t, v) (List.mem_cons_self _ _)
    have hpv : m.pending_state ≠ v := (List.chain'_cons.mp hchain).1
    have hq : (nvs_manager_save_led_state (some v) t m).2 =
        { m with pending_state := v, pending_timestamp := t,
                 pending_write := true } := by
      apply save_queues
      · rintro ⟨_, hlv⟩
        exact hvb (hlv.symm.trans h2)
      · rintro ⟨_, hps⟩
        exact hpv hps
    simp only [runSaves, lastReq]
    rw [hq]
    exact ih { m with pending_state := v, pending_timestamp := t,
                      pending_write := true }
      h1 h2 rfl (fun q hq2 => hvals q (List.mem_cons_of_mem _ hq2))
      (List.chain'_cons.mp hchain).2

/-- Processing a nonempty burst of requests, all different from the
baseline and pairwise consecutively distinct, starting from an idle
scheduler: the pending slot ends active, holding the last request. -/
lemma runSaves_idle (b : NvsLedState) (t : Nat) (v : NvsLedState)
    (rest : List (Nat × NvsLedState)) (m : NvsMgr)
    (h1 : m.state_cached = true) (h2 : m.last_saved_state = b)
    (h3 : m.pending_write = false)
    (hvals : ∀ p ∈ (t, v) :: rest, p.2 ≠ b)
    (hchain : List.Chain' (fun x y => x ≠ y) (((t, v) :: rest).map Prod.snd)) :
    (runSaves ((t, v) :: rest) m).state_cached = true ∧
    (runSaves ((t, v) :: rest) m).last_saved_state = b ∧
    (runSaves ((t, v) :: rest) m).pending_write = true ∧
    (runSaves ((t, v) :: rest) m).pending_state = (lastReq (t, v) rest).2 ∧
    (runSaves ((t, v) :: rest) m).pending_timestamp = (lastReq (t, v) rest).1 := by
  simp only [List.map_cons] at hchain
  have hvb : v ≠ b := hvals (t, v) (List.mem_cons_self _ _)
  have hq : (nvs_manager_save_led_state (some v) t m).2 =
      { m with pending_state := v, pending_timestamp := t,
               pending_write := true } := by
    apply save_queues
    · rintro ⟨_, hlv⟩
      exact hvb (hlv.symm.trans h2)
    · rintro ⟨hpw, _⟩
      rw [h3] at hpw
      exact Bool.false_ne_true hpw
  simp only [runSaves]
  rw [hq]
  exact runSaves_pending b rest
    { m with pending_state := v, pending_timestamp := t, pending_write := true }
    h1 h2 rfl (fun q hq2 => hvals q (List.mem_cons_of_mem _ hq2)) hchain

/-- Ticks never write while no write is pending. -/
lemma runTicks_inactive : ∀ (times : List Nat) (m : NvsMgr),
    m.pending_write = false → runTicks times m = (m, []) := by
  intro times
  induction times with
  | nil => intro m _; rfl
  | cons t rest ih =>
    intro m h
    have hstep : nvs_manager_check_pending_write true t m = (0, m, none) := by
      simp [nvs_manager_check_pending_write, h]
    simp only [runTicks, hstep]
    rw [ih m h]
    rfl

/-- With a write pending, a tick sequence containing at least one tick past
the debounce deadline performs exactly one durable write, of the pending
candidate. -/
lemma runTicks_commit_once : ∀ (times : List Nat) (m : NvsMgr),
    m.pending_write = true →
    (∃ t ∈ times,
      nvsElapsed t m.pending_timestamp ≥ FLASH_WRITE_DEBOUNCE_MS) →
    (runTicks times m).2 = [m.pending_state] := by
  intro times
  induction times with
  | nil =>
    intro m _ hex
    rcases hex with ⟨t, ht, _⟩
    exact absurd ht (List.not_mem_nil t)
  | cons t rest ih =>
    intro m hp hex
    by_cases he : nvsElapsed t m.pending_timestamp ≥ FLASH_WRITE_DEBOUNCE_MS
    · have hstep : nvs_manager_check_pending_write true t m =
          (0, { m with last_saved_state := m.pending_state,
                       state_cached := true, pending_write := false },
           some m.pending_state) := by
        simp [nvs_manager_check_pending_write, hp, he, nvs_manager_commit_write]
      simp only [runTicks, hstep]
      rw [runTicks_inactive rest _ rfl]
      rfl
    · have hstep : nvs_manager_check_pending_write true t m = (0, m, none) := by
        simp [nvs_manager_check_pending_write, hp, he]
      have hex2 : ∃ t2 ∈ rest,
          nvsElapsed t2 m.pending_timestamp ≥ FLASH_WRITE_DEBOUNCE_MS := by
        rcases hex with ⟨t2, ht2, hge⟩
        rcases List.mem_cons.mp ht2 with rfl | hmem
        · exact absurd hge he
        · exact ⟨t2, hmem, hge⟩
      simp only [runTicks, hstep]
      rw [ih m hp hex2]
      rfl

/-- Claim C2 counterexample: a single `requestSave` (a pairwise-distinct
burst within the window) whose candidate equals the committed baseline is
suppressed, so the subsequent ticks perform zero durable writes, not
exactly one containing the last requested value. -/
theorem coalescing_baseline_request_no_write :
    (runTicks [6000]
        (runSaves [(0, NVS_DEFAULTS)] (initMgr NVS_DEFAULTS))).2 =
      ([] : List NvsLedState) := by
  decide

/-- Claim C2 (amended): for a nonempty burst of `requestSave` calls with
pairwise-distinct candidates all different from the committed baseline,
issued within a span shorter than the debounce window from an idle
scheduler and followed by no further requests, the subsequent periodic
ticks (with the durable commit succeeding) perform exactly one durable
write, containing the last requested value. -/
theorem coalesced_single_write (b : NvsLedState) (t0 : Nat)
    (reqs : List (Nat × NvsLedState)) (ticks : List Nat) (m : NvsMgr)
    (hm1 : m.state_cached = true) (hm2 : m.last_saved_state = b)
    (hm3 : m.pending_write = false)
    (hne : reqs ≠ [])
    (hvals : ∀ p ∈ reqs, p.2 ≠ b)
    (hdistinct : List.Pairwise (fun x y => x ≠ y) (reqs.map Prod.snd))
    (hspan : ∀ p ∈ reqs, t0 ≤ p.1 ∧ p.1 < t0 + FLASH_WRITE_DEBOUNCE_MS)
    (htick : ∃ t ∈ ticks,
      nvsElapsed t (lastReq (t0, b) reqs).1 ≥ FLASH_WRITE_DEBOUNCE_MS) :
    (runTicks ticks (runSaves reqs m)).2 = [(lastReq (t0, b) reqs).2] := by
  obtain ⟨⟨t, v⟩, rest, rfl⟩ : ∃ p rest, reqs = p :: rest := by
    cases reqs with
    | nil => exact absurd rfl hne
    | cons p rest => exact ⟨p, rest, rfl⟩
  have hrun := runSaves_idle b t v rest m hm1 hm2 hm3 hvals hdistinct.chain'
  have hkey := runTicks_commit_once ticks (runSaves ((t, v) :: rest) m)
    hrun.2.2.1 (by rw [hrun.2.2.2.2]; exact htick)
  rw [hkey, hrun.2.2.2.1]
  rfl

/-- Claim C2 (amended) witness: two distinct requests at 0 ms and 100 ms,
ticks at 200 ms (no write), 5100 ms (the single write) and 5300 ms
(nothing pending), produce exactly the write (true, 210). -/
theorem coalesced_single_write_instance :
    ([((0 : Nat), (⟨true, 200⟩ : NvsLedState)), (100, ⟨true, 210⟩)] ≠
      ([] : List (Nat × NvsLedState))) ∧
    (∃ t ∈ [200, 5100, 5300],
      nvsElapsed t
          (lastReq (0, ⟨true, 155⟩)
            [((0 : Nat), (⟨true, 200⟩ : NvsLedState)), (100, ⟨true, 210⟩)]).1 ≥
        FLASH_WRITE_DEBOUNCE_MS) ∧
    (runTicks [200, 5100, 5300]
        (runSaves [((0 : Nat), (⟨true, 200⟩ : NvsLedState)), (100, ⟨true, 210⟩)]
          (initMgr ⟨true, 155⟩))).2 =
      [(lastReq (0, ⟨true, 155⟩)
          [((0 : Nat), (⟨true, 200⟩ : NvsLedState)), (100, ⟨true, 210⟩)]).2] :=
  ⟨by decide, by decide,
   coalesced_single_write ⟨true, 155⟩ 0
     [((0 : Nat), (⟨true, 200⟩ : NvsLedState)), (100, ⟨true, 210⟩)]
     [200, 5100, 5300] (initMgr ⟨true, 155⟩) rfl rfl rfl
     (by decide) (by decide) (by decide) (by decide) (by decide)⟩

end LedPwm
